import Mathlib

/-!
Verification of the wl-copy clipboard publishing engine (wl-clipboard-rs).

The definitions below are a shallow embedding of the program:

* the primary-selection support probe, whose implementation file is not part
  of the provided sources (only its tests in src/src/tests/utils.rs are) and
  is therefore modelled from the spec with every branch pinned to the
  outcomes those tests assert;
* the payload construction and newline trimming of the make_source function
  in src/src/wl_copy.rs;
* the main function of src/src/wl_copy.rs as a trace-producing function over
  an explicit model of the external world (compositor state, filesystem
  outcomes, fork result).
-/

set_option autoImplicit false

namespace WlCopy

/-! ## Capability probe (modelled) -/

/-- One advertised global object of the compositor registry:
an interface name together with the advertised version. -/
structure Global where
  interface : String
  version : Nat
  deriving Repr, DecidableEq

/-- The error type of the primary-selection support probe, as exercised by the
tests in src/src/tests/utils.rs and named by the spec taxonomy. -/
inductive PrimarySelectionCheckError where
  | NoSeats
  | MissingProtocol (name : String) (version : Nat)
  | SeatVersionTooLow
  deriving Repr, DecidableEq

/-- The highest advertised version of the globals with the given interface
name, or none when no such global is advertised. -/
def maxVersion (globals : List Global) (name : String) : Option Nat :=
  match (globals.filter (fun g => g.interface = name)).map (fun g => g.version) with
  | [] => none
  | v :: vs => some (vs.foldl max v)

/-- A probe scenario: the advertised globals, plus whether the compositor
emits the primary-selection event during the data-device creation exchange. -/
structure ProbeScenario where
  globals : List Global
  primarySelectionEvent : Bool
  deriving Repr, DecidableEq

/-- Modelled from the spec: the primary-selection support probe
(is_primary_selection_supported_internal), whose implementation file is
missing from the provided sources; only its tests in src/src/tests/utils.rs
are present. The model follows the probe algorithm of spec section 4.1, with
each branch pinned to the outcome the in-repo tests assert:

* no zwlr_data_control_manager_v1 global advertised: the probe fails with
  MissingProtocol, name zwlr_data_control_manager_v1, version 1
  (test is_primary_selection_supported_no_data_control);
* the manager advertised only at version 1: the probe succeeds with false,
  since version 1 of the protocol has no primary selection
  (test is_primary_selection_supported_data_control_v1);
* manager at version 2 or above but no wl_seat advertised: NoSeats
  (test is_primary_selection_supported_no_seats);
* a seat advertised below version 2: SeatVersionTooLow (spec taxonomy;
  test supports_v2_seats shows version 2 seats are accepted);
* otherwise the result is exactly the presence of the primary-selection
  event during the device-creation exchange
  (tests is_primary_selection_supported_test and
  is_primary_selection_supported_primary_selection_unsupported). -/
def probe (s : ProbeScenario) : Except PrimarySelectionCheckError Bool :=
  match maxVersion s.globals "zwlr_data_control_manager_v1" with
  | none => .error (.MissingProtocol "zwlr_data_control_manager_v1" 1)
  | some v =>
    if v < 2 then
      .ok false
    else
      match maxVersion s.globals "wl_seat" with
      | none => .error .NoSeats
      | some sv =>
        if sv < 2 then .error .SeatVersionTooLow
        else .ok s.primarySelectionEvent

/-- The scenario of test is_primary_selection_supported_data_control_v1:
only the clipboard manager, advertised at version 1. -/
def v1OnlyScenario : ProbeScenario :=
  ⟨[⟨"zwlr_data_control_manager_v1", 1⟩], false⟩

/-! ## make_source: payload construction and newline trimming
(src/src/wl_copy.rs, make_source) -/

/-- The command-line options of wl-copy, as already parsed by the excluded
CLI layer. Argument strings (the text field) are byte lists, matching the
OsString values of the source. -/
structure Options where
  paste_once : Bool
  foreground : Bool
  clear : Bool
  primary : Bool
  trim_newline : Bool
  seat : Option String
  mime_type : Option String
  text : List (List Nat)
  deriving Repr

/-- The payload written to the temp file by make_source, together with a flag
recording whether the standard input was read. When text is empty the
standard input is copied; otherwise the first argument is taken and every
further argument is appended after a pushed single space, exactly as the
drain loop of make_source does. -/
def makeSourcePayload (text : List (List Nat)) (stdin : List Nat) :
    List Nat × Bool :=
  match text with
  | [] => (stdin, true)
  | a :: rest => (rest.foldl (fun acc arg => acc ++ [32] ++ arg) a, false)

/-- The space-joined form a reader would write down directly: the argument
byte lists with a single ASCII space (byte 32) between consecutive arguments
and no leading or trailing separator. Used to compare makeSourcePayload
against the wording of the claim. -/
def spaceSeparated : List (List Nat) → List Nat
  | [] => []
  | [a] => a
  | a :: b :: rest => a ++ [32] ++ spaceSeparated (b :: rest)

/-- The newline-trimming step of make_source, on the payload bytes of the
temp file. The source only acts when trim_newline is set and the MIME type
is text; it then checks the file length, and only for a nonempty file seeks
to the last byte, reads it, and truncates the file by one byte when that
byte is LF (0x0A). Seeking before the start of the file (which would happen
on an empty file, were the length guard absent) is an error. -/
def trimTrailingNewline (trim isTextMime : Bool) (data : List Nat) :
    Except String (List Nat) :=
  if trim && isTextMime then
    if data.length > 0 then
      match data.getLast? with
      | none => .error "Error seeking the temp file"
      | some b =>
        if b == 10 then .ok (data.take (data.length - 1)) else .ok data
    else
      .ok data
  else
    .ok data

/-- The whole make_source on the model: build the payload, resolve the MIME
type (defaulting to application/octet-stream), trim, and return the MIME
type with the final payload bytes. The is_text helper lives in a source file
that is not part of the provided sources, so it is an explicit parameter. -/
def makeSource (opts : Options) (stdin : List Nat)
    (isTextFn : String → Bool) : Except String (String × List Nat × Bool) :=
  let (payload, stdinRead) := makeSourcePayload opts.text stdin
  let mime := opts.mime_type.getD "application/octet-stream"
  match trimTrailingNewline opts.trim_newline (isTextFn mime) payload with
  | .ok d => .ok (mime, d, stdinRead)
  | .error e => .error e

/-! ## The main function as a trace (src/src/wl_copy.rs, main) -/

/-- The MIME-type labels offered on the data source, in offer order: when the
type is text, the five common text labels are offered first (richest first),
and the MIME type itself is always offered last. -/
def offeredTypes (isTextMime : Bool) (mime : String) : List String :=
  (if isTextMime then
    ["text/plain;charset=utf-8", "text/plain", "STRING", "UTF8_STRING", "TEXT"]
  else []) ++ [mime]

/-- The externally visible actions of main, in program order. -/
inductive Event where
  /-- clipboard_manager.create_source -/
  | createSource
  /-- data_source.offer of one MIME-type label -/
  | offer (mime : String)
  /-- clipboard_manager.get_device for one seat -/
  | getDevice (seat : Nat)
  /-- queue.sync_roundtrip -/
  | roundtrip
  /-- device.set_selection; the flag records whether a data source is
  attached (copy) or none is (clear) -/
  | setSelection (device : Nat) (sourcePresent : Bool)
  /-- the backgrounding fork -/
  | forkCall
  /-- entry into the flush/dispatch loop -/
  | enterLoop
  /-- remove_file of the backing payload file -/
  | removeFile
  /-- remove_dir of the containing temp directory -/
  | removeDir
  deriving Repr, DecidableEq

/-- The way a run of main ends: a process exit code (process::exit, a parent
return after fork, or falling off the end of main, which is exit 0), or a
fatal abort out of an expect with its message. -/
inductive Outcome where
  | exitCode (n : Nat)
  | fatal (msg : String)
  deriving Repr, DecidableEq

/-- The model of everything outside main that main observes: the compositor
state delivered by the transport and the success of each fallible external
operation. seatData is the per-seat registry state read back after the
seat-name roundtrip: for each seat an optional name and an optionally bound
device handle (seats discovered during the roundtrip have no device yet,
which is why the filter in main re-checks). isTextFn stands for the is_text
helper, whose source file is not among the provided sources. -/
structure World where
  /-- seat handles present after initialize -/
  seats : List Nat
  /-- clipboard_manager.requires_serial() -/
  requiresSerial : Bool
  /-- per-seat (name, bound device) state after the name roundtrip -/
  seatData : List (Option String × Option Nat)
  /-- the is_text MIME classifier -/
  isTextFn : String → Bool
  /-- the seat-name sync_roundtrip succeeds -/
  namesRoundtripOk : Bool
  /-- the fork lands in the parent (true) or the child (false) -/
  forkIsParent : Bool
  /-- every flush/dispatch of the loop succeeds until should_quit -/
  loopOk : Bool
  /-- remove_file of the payload file succeeds -/
  removeFileOk : Bool
  /-- remove_dir of the temp directory succeeds -/
  removeDirOk : Bool
  /-- the final sync_roundtrip of the clear path succeeds -/
  clearRoundtripOk : Bool

/-- The filter_map over the seat data that picks the devices main will set
the selection on: seats without a device are skipped; with no requested seat
every device is taken; with a requested seat only devices of a seat carrying
exactly that name are taken. Mirrors the filter_map closure of main. -/
def filterDevices (seatOpt : Option String)
    (seatData : List (Option String × Option Nat)) : List Nat :=
  seatData.filterMap fun d =>
    match d.2 with
    | none => none
    | some device =>
      match seatOpt with
      | none => some device
      | some desired =>
        match d.1 with
        | some name => if name = desired then some device else none
        | none => none

/-- The tail of the trace from the point the dispatch loop is entered: the
loop runs until should_quit (or dies on a flush/dispatch error), then the
payload file and the temp directory are removed in that order, each removal
aborting fatally on failure. -/
def loopAndCleanup (w : World) : List Event × Outcome :=
  if !w.loopOk then
    ([.enterLoop], .fatal "Error dispatching queue")
  else if !w.removeFileOk then
    ([.enterLoop, .removeFile], .fatal "Error removing the temp file")
  else if !w.removeDirOk then
    ([.enterLoop, .removeFile, .removeDir],
      .fatal "Error removing the temp directory")
  else
    ([.enterLoop, .removeFile, .removeDir], .exitCode 0)

/-- The main function of wl-copy as a trace of events plus an outcome,
following src/src/wl_copy.rs line by line: the no-seat and requires_serial
startup checks, source creation with its offers (skipped when clearing),
device creation per seat, the seat-name roundtrip, the device filter with
its empty-result exit, selection setting (immediate, since a serial is never
required past the startup check), then either fork plus dispatch loop plus
cleanup (source present) or one final roundtrip (clear). -/
def mainTrace (opts : Options) (w : World) : List Event × Outcome :=
  if w.seats.isEmpty then
    ([], .exitCode 1)
  else if w.requiresSerial then
    ([], .exitCode 1)
  else
    let mime := opts.mime_type.getD "application/octet-stream"
    let sourceEvents : List Event :=
      if !opts.clear then
        .createSource :: (offeredTypes (w.isTextFn mime) mime).map .offer
      else []
    let sourcePresent := !opts.clear
    let deviceEvents := w.seats.map Event.getDevice
    let t0 := sourceEvents ++ deviceEvents ++ [Event.roundtrip]
    if !w.namesRoundtripOk then
      (t0, .fatal "Error doing a roundtrip")
    else
      let devices := filterDevices opts.seat w.seatData
      if devices.isEmpty then
        (t0, .exitCode 1)
      else
        let selectionEvents :=
          if !w.requiresSerial then
            devices.map (fun d => Event.setSelection d sourcePresent)
          else []
        let t1 := t0 ++ selectionEvents
        if sourcePresent then
          if !opts.foreground then
            let t2 := t1 ++ [Event.forkCall]
            if w.forkIsParent then
              (t2, .exitCode 0)
            else
              (t2 ++ (loopAndCleanup w).1, (loopAndCleanup w).2)
          else
            (t1 ++ (loopAndCleanup w).1, (loopAndCleanup w).2)
        else
          let t2 := t1 ++ [Event.roundtrip]
          if w.clearRoundtripOk then (t2, .exitCode 0)
          else (t2, .fatal "Error doing a roundtrip")

/-! ## Theorems -/

/-- C1 counterexample: with zwlr_data_control_manager_v1 advertised only at
version 1 (the scenario of test
is_primary_selection_supported_data_control_v1), the probe returns the
success value false (unsupported), not the SeatVersionTooLow failure and not
the MissingProtocol failure the claim asserts. -/
theorem probe_v1_only_counterexample :
    probe v1OnlyScenario = .ok false ∧
    probe v1OnlyScenario ≠ .error .SeatVersionTooLow ∧
    probe v1OnlyScenario ≠
      .error (.MissingProtocol "zwlr_data_control_manager_v1" 1) := by
  have he : probe v1OnlyScenario = .ok false := rfl
  refine ⟨he, fun h => ?_, fun h => ?_⟩ <;> rw [he] at h <;>
    exact Except.noConfusion h

/-- C1 (amended): if the clipboard protocol interface
zwlr_data_control_manager_v1 is advertised only below version 2, the
primary-selection support probe returns the success value false (primary
selection unsupported), not a failure. -/
theorem probe_v1_only_returns_unsupported (s : ProbeScenario) (v : Nat)
    (hv : maxVersion s.globals "zwlr_data_control_manager_v1" = some v)
    (hlt : v < 2) :
    probe s = .ok false := by
  simp [probe, hv, hlt]

/-- Witness for C1 (amended) at the scenario of test
is_primary_selection_supported_data_control_v1. -/
theorem probe_v1_only_returns_unsupported_witness :
    probe v1OnlyScenario = .ok false :=
  probe_v1_only_returns_unsupported v1OnlyScenario 1 (by decide) (by decide)

/-- C6: when a seat and the clipboard protocol are advertised at the
required versions, the probe succeeds with true exactly when the
primary-selection event is emitted during the device-creation exchange, and
completion of that exchange without the event yields the unsupported
result. -/
theorem probe_supported_iff_event (s : ProbeScenario) (vm vs : Nat)
    (hm : maxVersion s.globals "zwlr_data_control_manager_v1" = some vm)
    (hm2 : 2 ≤ vm)
    (hs : maxVersion s.globals "wl_seat" = some vs)
    (hs2 : 2 ≤ vs) :
    probe s = .ok s.primarySelectionEvent ∧
    (probe s = .ok true ↔ s.primarySelectionEvent = true) ∧
    (s.primarySelectionEvent = false → probe s = .ok false) := by
  have h1 : ¬ vm < 2 := by omega
  have h2 : ¬ vs < 2 := by omega
  refine ⟨?_, ?_, ?_⟩ <;> simp [probe, hm, hs, h1, h2]

/-- A scenario with manager version 2, a seat at version 6, and the
primary-selection event emitted (the scenario of test
is_primary_selection_supported_test). -/
def supportedScenario : ProbeScenario :=
  ⟨[⟨"zwlr_data_control_manager_v1", 2⟩, ⟨"wl_seat", 6⟩], true⟩

/-- Witness for C6 at the scenario of test
is_primary_selection_supported_test. -/
theorem probe_supported_iff_event_witness :
    probe supportedScenario = .ok true :=
  (probe_supported_iff_event supportedScenario 2 6 (by decide) (by decide)
    (by decide) (by decide)).1

/-- Auxiliary: prepending to the head of the space-joined list distributes
over the join. -/
theorem spaceSeparated_append_head (x y : List Nat)
    (rest : List (List Nat)) :
    spaceSeparated ((x ++ y) :: rest) = x ++ spaceSeparated (y :: rest) := by
  cases rest with
  | nil => rfl
  | cons c cs => simp [spaceSeparated, List.append_assoc]

/-- Auxiliary: the drain-and-push loop of make_source computes exactly the
space-joined form of the argument list. -/
theorem foldl_space_eq_spaceSeparated (rest : List (List Nat))
    (a : List Nat) :
    rest.foldl (fun acc arg => acc ++ [32] ++ arg) a =
      spaceSeparated (a :: rest) := by
  induction rest generalizing a with
  | nil => rfl
  | cons b bs ih =>
    rw [List.foldl_cons, ih (a ++ [32] ++ b),
      spaceSeparated_append_head (a ++ [32]) b bs]
    simp [spaceSeparated, List.append_assoc]

/-- C10: with at least one literal text argument, the payload is exactly
the arguments joined with a single ASCII space between consecutive
arguments (no leading or trailing separator) and standard input is not
read; with an empty argument list the payload is exactly the standard input
bytes and stdin is read. -/
theorem payload_joined_args_or_stdin (text : List (List Nat))
    (stdin : List Nat) :
    (text ≠ [] →
      makeSourcePayload text stdin = (spaceSeparated text, false)) ∧
    (text = [] → makeSourcePayload text stdin = (stdin, true)) := by
  constructor
  · intro h
    match text with
    | [] => exact absurd rfl h
    | a :: rest =>
      simp only [makeSourcePayload]
      rw [foldl_space_eq_spaceSeparated]
  · intro h
    subst h
    rfl

/-- Witness for C10: two arguments are joined with one space and stdin is
untouched; no arguments reads stdin. -/
theorem payload_joined_args_or_stdin_witness :
    makeSourcePayload [[104], [105, 33]] [9] = ([104, 32, 105, 33], false) ∧
    makeSourcePayload ([] : List (List Nat)) [9] = ([9], true) :=
  ⟨((payload_joined_args_or_stdin [[104], [105, 33]] [9]).1
      (by decide)).trans (by decide),
    (payload_joined_args_or_stdin [] [9]).2 rfl⟩

/-- C9: the newline-trimming step never errors on any payload (in
particular not on the empty payload, which it leaves unchanged), it removes
exactly the final byte when trimming is requested, the MIME type is
text-like and the final byte is LF (0x0A), and otherwise leaves the payload
byte-for-byte unchanged; when the final byte is LF the trimmed result drops
that one byte only. -/
theorem trim_at_most_one_trailing_newline (trim isTextMime : Bool)
    (data : List Nat) :
    trimTrailingNewline trim isTextMime data =
      .ok (if trim && isTextMime && (data.getLast? == some 10) then
            data.dropLast
          else data) ∧
    (data.getLast? = some 10 → data = data.dropLast ++ [10]) ∧
    trimTrailingNewline trim isTextMime [] = .ok [] := by
  refine ⟨?_, ?_, ?_⟩
  · rw [trimTrailingNewline]
    cases htr : trim && isTextMime with
    | false => simp [htr]
    | true =>
      simp only [if_pos rfl]
      cases data with
      | nil => simp
      | cons x xs =>
        have hne : x :: xs ≠ [] := by simp
        have hlen : (x :: xs).length > 0 := by simp
        rw [List.getLast?_eq_getLast _ hne]
        simp only [if_pos hlen]
        cases hb : (x :: xs).getLast hne == 10 with
        | false => simp [hb]
        | true => simp [hb, List.dropLast_eq_take]
  · intro h
    exact (List.dropLast_append_getLast? 10 h).symm
  · rw [trimTrailingNewline]
    cases htr : trim && isTextMime <;> simp [htr]

/-- Witness for C9 (the conjuncts with hypotheses applied at a concrete
payload): a text payload ending in LF loses exactly that byte, and the
trailing-LF payload decomposes as its dropLast plus the LF. -/
theorem trim_at_most_one_trailing_newline_witness :
    trimTrailingNewline true true [104, 10] = .ok [104] ∧
    ([104, 10] : List Nat) = [104, 10].dropLast ++ [10] :=
  ⟨((trim_at_most_one_trailing_newline true true [104, 10]).1).trans rfl,
    (trim_at_most_one_trailing_newline true true [104, 10]).2.1 (by decide)⟩

/-! ### Reduction lemmas for the main trace -/

/-- Auxiliary: under a successful loop, the loop-and-cleanup tail removes
the file, then (only if that succeeded) the directory, with the matching
outcome. -/
theorem loopAndCleanup_eq_of_loopOk (w : World) (h : w.loopOk = true) :
    loopAndCleanup w =
      ([Event.enterLoop, Event.removeFile] ++
        (if w.removeFileOk then [Event.removeDir] else []),
       if w.removeFileOk = false then .fatal "Error removing the temp file"
       else if w.removeDirOk = false then
         .fatal "Error removing the temp directory"
       else .exitCode 0) := by
  rw [loopAndCleanup]
  cases w.removeFileOk <;> cases w.removeDirOk <;> simp [h]

/-- Auxiliary: every event of the loop-and-cleanup tail is the loop entry,
the file removal or the directory removal. -/
theorem loopAndCleanup_events (w : World) :
    ∀ e ∈ (loopAndCleanup w).1,
      e = Event.enterLoop ∨ e = Event.removeFile ∨ e = Event.removeDir := by
  rw [loopAndCleanup]
  cases w.loopOk <;> cases w.removeFileOk <;> cases w.removeDirOk <;>
    simp

/-- Auxiliary: the loop-and-cleanup tail starts with the loop entry. -/
theorem loopAndCleanup_head (w : World) :
    (loopAndCleanup w).1.head? = some Event.enterLoop := by
  rw [loopAndCleanup]
  cases w.loopOk <;> cases w.removeFileOk <;> cases w.removeDirOk <;>
    simp

/-- Auxiliary: the shape of the whole trace of a copy (non-clear) run that
passes the startup checks, the name roundtrip and the device filter. -/
theorem mainTrace_copy_eq (opts : Options) (w : World)
    (h1 : w.seats.isEmpty = false)
    (h2 : w.requiresSerial = false)
    (h3 : w.namesRoundtripOk = true)
    (h4 : (filterDevices opts.seat w.seatData).isEmpty = false)
    (hclear : opts.clear = false) :
    mainTrace opts w =
      ((Event.createSource ::
          (offeredTypes
            (w.isTextFn (opts.mime_type.getD "application/octet-stream"))
            (opts.mime_type.getD "application/octet-stream")).map Event.offer)
        ++ w.seats.map Event.getDevice ++ [Event.roundtrip]
        ++ (filterDevices opts.seat w.seatData).map
            (fun d => Event.setSelection d true)
        ++ (if opts.foreground then (loopAndCleanup w).1
            else Event.forkCall ::
              (if w.forkIsParent then [] else (loopAndCleanup w).1)),
       if !opts.foreground && w.forkIsParent then .exitCode 0
       else (loopAndCleanup w).2) := by
  rw [mainTrace]
  cases hf : opts.foreground <;> cases hp : w.forkIsParent <;>
    simp [h1, h2, h3, h4, hclear, List.append_assoc]

/-- Auxiliary: the shape of the whole trace of a clear run that passes the
startup checks, the name roundtrip and the device filter. -/
theorem mainTrace_clear_eq (opts : Options) (w : World)
    (h1 : w.seats.isEmpty = false)
    (h2 : w.requiresSerial = false)
    (h3 : w.namesRoundtripOk = true)
    (h4 : (filterDevices opts.seat w.seatData).isEmpty = false)
    (hclear : opts.clear = true) :
    mainTrace opts w =
      (w.seats.map Event.getDevice ++ [Event.roundtrip]
        ++ (filterDevices opts.seat w.seatData).map
            (fun d => Event.setSelection d false)
        ++ [Event.roundtrip],
       if w.clearRoundtripOk then .exitCode 0
       else .fatal "Error doing a roundtrip") := by
  rw [mainTrace]
  cases hc : w.clearRoundtripOk <;>
    simp [h1, h2, h3, h4, hclear, List.append_assoc]

/-! ### Test fixtures for the witnesses -/

/-- One seat (handle 0) named seat0 with bound device 7; no serial needed;
every external operation succeeds; the fork lands in the child. -/
def testWorld : World :=
  ⟨[0], false, [(some "seat0", some 7)], fun _ => true, true, false, true,
    true, true, true⟩

/-- Like testWorld but the negotiated protocol requires a serial. -/
def serialWorld : World :=
  ⟨[0], true, [(some "seat0", some 7)], fun _ => true, true, false, true,
    true, true, true⟩

/-- A plain copy run: no flags, all seats, inferred MIME type, one literal
argument. -/
def copyOptions : Options :=
  ⟨false, false, false, false, false, none, none, [[104]]⟩

/-- A copy run asking for the seat named nope, which no seat carries. -/
def namedSeatOptions : Options :=
  ⟨false, false, false, false, false, some "nope", none, [[104]]⟩

/-- A clear run. -/
def clearOptions : Options :=
  ⟨false, false, true, false, false, none, none, []⟩

/-- C5: whenever the negotiated clipboard manager requires a serial, main
exits with code 1 during startup with an empty trace: no data source is
created, no device is bound and no selection is set. -/
theorem serial_required_exits_at_startup (opts : Options) (w : World)
    (h : w.requiresSerial = true) :
    (mainTrace opts w).1 = [] ∧ (mainTrace opts w).2 = .exitCode 1 := by
  rw [mainTrace]
  cases he : w.seats.isEmpty <;> simp [he, h]

/-- Witness for C5. -/
theorem serial_required_exits_at_startup_witness :
    (mainTrace copyOptions serialWorld).1 = [] ∧
    (mainTrace copyOptions serialWorld).2 = .exitCode 1 :=
  serial_required_exits_at_startup copyOptions serialWorld rfl

/-- C3: when a seat name was requested and no entry of the seat registry
with a bound device carries that name, main exits with code 1 and the trace
contains no selection-setting event at all (all-or-nothing). -/
theorem named_seat_no_match_all_or_nothing (opts : Options) (w : World)
    (s : String)
    (hseat : opts.seat = some s)
    (h1 : w.seats.isEmpty = false)
    (h2 : w.requiresSerial = false)
    (h3 : w.namesRoundtripOk = true)
    (hnone : ∀ p ∈ w.seatData, p.2.isSome = true → p.1 ≠ some s) :
    (mainTrace opts w).2 = .exitCode 1 ∧
    ∀ d b, Event.setSelection d b ∉ (mainTrace opts w).1 := by
  have hfil : filterDevices opts.seat w.seatData = [] := by
    rw [hseat, filterDevices, List.filterMap_eq_nil_iff]
    intro p hp
    cases hd : p.2 with
    | none => simp [hd]
    | some dev =>
      cases hn : p.1 with
      | none => simp [hd, hn]
      | some n =>
        have hne := hnone p hp (by rw [hd]; rfl)
        have hns : ¬ n = s := fun h => hne (by rw [hn, h])
        simp [hd, hn, hns]
  constructor
  · rw [mainTrace]
    simp [h1, h2, h3, hfil]
  · intro d b
    rw [mainTrace]
    cases hcl : opts.clear <;> simp [h1, h2, h3, hfil, hcl]

/-- Witness for C3: requesting seat nope in a world whose only named seat
is seat0 exits with code 1 and never sets a selection on device 7. -/
theorem named_seat_no_match_all_or_nothing_witness :
    (mainTrace namedSeatOptions testWorld).2 = .exitCode 1 ∧
    Event.setSelection 7 true ∉ (mainTrace namedSeatOptions testWorld).1 := by
  have h := named_seat_no_match_all_or_nothing namedSeatOptions testWorld
    "nope" rfl rfl rfl rfl (by decide)
  exact ⟨h.1, h.2 7 true⟩

/-- C4: in a backgrounding copy run, the fork happens after the data source
is created, after every seat got its device and after every selected device
had its selection set, and before the dispatch loop is entered; in the
parent the run ends immediately after the fork with exit code 0, in the
child the very next event is the loop entry. -/
theorem fork_after_setup_before_loop (opts : Options) (w : World)
    (h1 : w.seats.isEmpty = false)
    (h2 : w.requiresSerial = false)
    (h3 : w.namesRoundtripOk = true)
    (h4 : (filterDevices opts.seat w.seatData).isEmpty = false)
    (hclear : opts.clear = false)
    (hfg : opts.foreground = false) :
    ∃ pre post, (mainTrace opts w).1 = pre ++ [Event.forkCall] ++ post ∧
      Event.createSource ∈ pre ∧
      (∀ s ∈ w.seats, Event.getDevice s ∈ pre) ∧
      (∀ d ∈ filterDevices opts.seat w.seatData,
        Event.setSelection d true ∈ pre) ∧
      Event.enterLoop ∉ pre ∧
      (w.forkIsParent = true →
        post = [] ∧ (mainTrace opts w).2 = .exitCode 0) ∧
      (w.forkIsParent = false → post.head? = some Event.enterLoop) ∧
      (∀ e ∈ post,
        e = Event.enterLoop ∨ e = Event.removeFile ∨ e = Event.removeDir) := by
  rw [mainTrace_copy_eq opts w h1 h2 h3 h4 hclear]
  refine ⟨(Event.createSource ::
      (offeredTypes
        (w.isTextFn (opts.mime_type.getD "application/octet-stream"))
        (opts.mime_type.getD "application/octet-stream")).map Event.offer)
      ++ w.seats.map Event.getDevice ++ [Event.roundtrip]
      ++ (filterDevices opts.seat w.seatData).map
          (fun d => Event.setSelection d true),
    if w.forkIsParent then [] else (loopAndCleanup w).1,
    ?_, ?_, ?_, ?_, ?_, ?_, ?_, ?_⟩
  · cases hp : w.forkIsParent <;> simp [hfg, hp, List.append_assoc]
  · simp
  · intro s hs
    simp [hs]
  · intro d hd
    simp [hd]
  · simp
  · intro hp
    simp [hfg, hp]
  · intro hp
    simp [hp, loopAndCleanup_head w]
  · intro e he
    cases hp : w.forkIsParent with
    | true => rw [hp] at he; simp at he
    | false =>
      rw [hp] at he
      simp only [if_neg Bool.false_ne_true] at he
      exact loopAndCleanup_events w e he

/-- Witness for C4: the fixture world forks into the child and the loop is
entered right after the fork. -/
theorem fork_after_setup_before_loop_witness :
    ∃ pre post,
      (mainTrace copyOptions testWorld).1 = pre ++ [Event.forkCall] ++ post ∧
      Event.createSource ∈ pre ∧ Event.enterLoop ∉ pre ∧
      post.head? = some Event.enterLoop := by
  obtain ⟨pre, post, he, hcs, _, _, hnl, _, hchild, _⟩ :=
    fork_after_setup_before_loop copyOptions testWorld rfl rfl rfl
      (by decide) rfl rfl
  exact ⟨pre, post, he, hcs, hnl, hchild rfl⟩

/-- C2: in a copy run whose dispatch loop is reached and exits, cleanup
removes the backing payload file first and the containing temp directory
second (the directory removal is attempted only after the file removal
succeeded, and neither appears earlier in the trace), a failure of either
removal is a fatal reported error, and the run exits 0 exactly when both
removals succeed. -/
theorem cleanup_file_then_dir_fatal_on_failure (opts : Options) (w : World)
    (h1 : w.seats.isEmpty = false)
    (h2 : w.requiresSerial = false)
    (h3 : w.namesRoundtripOk = true)
    (h4 : (filterDevices opts.seat w.seatData).isEmpty = false)
    (hclear : opts.clear = false)
    (hreach : opts.foreground = true ∨ w.forkIsParent = false)
    (hloop : w.loopOk = true) :
    ∃ pre, (mainTrace opts w).1 =
        pre ++ [Event.enterLoop, Event.removeFile] ++
          (if w.removeFileOk then [Event.removeDir] else []) ∧
      Event.removeFile ∉ pre ∧ Event.removeDir ∉ pre ∧
      (w.removeFileOk = false →
        (mainTrace opts w).2 = .fatal "Error removing the temp file") ∧
      (w.removeFileOk = true → w.removeDirOk = false →
        (mainTrace opts w).2 = .fatal "Error removing the temp directory") ∧
      ((mainTrace opts w).2 = .exitCode 0 ↔
        w.removeFileOk = true ∧ w.removeDirOk = true) := by
  rw [mainTrace_copy_eq opts w h1 h2 h3 h4 hclear,
    loopAndCleanup_eq_of_loopOk w hloop]
  have hout : (if !opts.foreground && w.forkIsParent then Outcome.exitCode 0
      else if w.removeFileOk = false then
        Outcome.fatal "Error removing the temp file"
      else if w.removeDirOk = false then
        Outcome.fatal "Error removing the temp directory"
      else Outcome.exitCode 0) =
      (if w.removeFileOk = false then
        Outcome.fatal "Error removing the temp file"
      else if w.removeDirOk = false then
        Outcome.fatal "Error removing the temp directory"
      else Outcome.exitCode 0) := by
    rcases hreach with hfg | hp
    · simp [hfg]
    · simp [hp]
  refine ⟨((Event.createSource ::
      (offeredTypes
        (w.isTextFn (opts.mime_type.getD "application/octet-stream"))
        (opts.mime_type.getD "application/octet-stream")).map Event.offer)
      ++ w.seats.map Event.getDevice ++ [Event.roundtrip]
      ++ (filterDevices opts.seat w.seatData).map
          (fun d => Event.setSelection d true))
      ++ (if opts.foreground then [] else [Event.forkCall]), ?_, ?_, ?_,
    ?_, ?_, ?_⟩
  · rcases hreach with hfg | hp
    · simp [hfg, List.append_assoc]
    · cases hfg : opts.foreground <;> simp [hfg, hp, List.append_assoc]
  · cases hfg : opts.foreground <;> simp [hfg]
  · cases hfg : opts.foreground <;> simp [hfg]
  · intro hrf
    rw [hout]
    simp [hrf]
  · intro hrf hrd
    rw [hout]
    simp [hrf, hrd]
  · rw [hout]
    cases hrf : w.removeFileOk <;> cases hrd : w.removeDirOk <;> simp

/-- Witness for C2: in the fixture world both removals succeed, the trace
ends with loop entry, file removal, directory removal, and the run exits
0. -/
theorem cleanup_file_then_dir_fatal_on_failure_witness :
    (∃ pre, (mainTrace copyOptions testWorld).1 =
      pre ++ [Event.enterLoop, Event.removeFile] ++ [Event.removeDir]) ∧
    (mainTrace copyOptions testWorld).2 = .exitCode 0 := by
  obtain ⟨pre, he, _, _, _, _, hiff⟩ :=
    cleanup_file_then_dir_fatal_on_failure copyOptions testWorld rfl rfl rfl
      (by decide) rfl (Or.inr rfl) rfl
  exact ⟨⟨pre, by simpa using he⟩, hiff.mpr ⟨rfl, rfl⟩⟩

/-- Auxiliary: no offer event occurs in the loop-and-cleanup tail. -/
theorem offer_not_mem_loopAndCleanup (w : World) (m : String) :
    Event.offer m ∉ (loopAndCleanup w).1 := by
  intro hm
  rcases loopAndCleanup_events w _ hm with h | h | h <;>
    exact Event.noConfusion h

/-- C8: in a copy run the trace starts with the source creation followed
immediately by all offers, in source order; no offer occurs anywhere later,
and every device binding and every selection setting occurs after the
offers; for a text MIME type the offered labels are the richest text label
first, then the other common text labels, then the MIME type itself, and
for a non-text MIME type exactly that single label. -/
theorem offers_before_attachment (opts : Options) (w : World)
    (h1 : w.seats.isEmpty = false)
    (h2 : w.requiresSerial = false)
    (h3 : w.namesRoundtripOk = true)
    (h4 : (filterDevices opts.seat w.seatData).isEmpty = false)
    (hclear : opts.clear = false) :
    (∃ rest, (mainTrace opts w).1 =
        Event.createSource ::
          ((offeredTypes
              (w.isTextFn (opts.mime_type.getD "application/octet-stream"))
              (opts.mime_type.getD "application/octet-stream")).map
            Event.offer ++ rest) ∧
        (∀ m, Event.offer m ∉ rest) ∧
        (∀ s ∈ w.seats, Event.getDevice s ∈ rest) ∧
        (∀ d ∈ filterDevices opts.seat w.seatData,
          Event.setSelection d true ∈ rest)) ∧
    (∀ mime, offeredTypes true mime =
        ["text/plain;charset=utf-8", "text/plain", "STRING", "UTF8_STRING",
          "TEXT", mime]) ∧
    (∀ mime, offeredTypes false mime = [mime]) := by
  refine ⟨?_, fun mime => rfl, fun mime => rfl⟩
  rw [mainTrace_copy_eq opts w h1 h2 h3 h4 hclear]
  refine ⟨w.seats.map Event.getDevice ++ [Event.roundtrip]
      ++ (filterDevices opts.seat w.seatData).map
          (fun d => Event.setSelection d true)
      ++ (if opts.foreground then (loopAndCleanup w).1
          else Event.forkCall ::
            (if w.forkIsParent then [] else (loopAndCleanup w).1)),
    by simp [List.append_assoc], ?_, ?_, ?_⟩
  · intro m
    cases hfg : opts.foreground <;> cases hp : w.forkIsParent <;>
      simp [hfg, hp, offer_not_mem_loopAndCleanup w m]
  · intro s hs
    simp [hs]
  · intro d hd
    simp [hd]

/-- Witness for C8: in the fixture world (a text classifier and the default
MIME type), the trace opens with the source creation and the six offers,
richest first, then the device binding of seat 0 appears later. -/
theorem offers_before_attachment_witness :
    ∃ rest, (mainTrace copyOptions testWorld).1 =
      Event.createSource ::
        (["text/plain;charset=utf-8", "text/plain", "STRING", "UTF8_STRING",
          "TEXT", "application/octet-stream"].map Event.offer ++ rest) ∧
      Event.getDevice 0 ∈ rest := by
  obtain ⟨⟨rest, he, _, hdev, _⟩, _, _⟩ :=
    offers_before_attachment copyOptions testWorld rfl rfl rfl (by decide)
      rfl
  exact ⟨rest, he, hdev 0 (by decide)⟩

/-- Auxiliary: no create-source event occurs in the loop-and-cleanup
tail. -/
theorem createSource_not_mem_loopAndCleanup (w : World) :
    Event.createSource ∉ (loopAndCleanup w).1 := by
  intro hm
  rcases loopAndCleanup_events w _ hm with h | h | h <;>
    exact Event.noConfusion h

/-- Auxiliary: a copy run that passes the startup checks creates exactly
one data source, whatever happens later. -/
theorem copy_run_creates_one_source (opts : Options) (w : World)
    (h1 : w.seats.isEmpty = false)
    (h2 : w.requiresSerial = false)
    (hclear : opts.clear = false) :
    (mainTrace opts w).1.count Event.createSource = 1 := by
  have hloop : (loopAndCleanup w).1.count Event.createSource = 0 :=
    List.count_eq_zero.mpr (createSource_not_mem_loopAndCleanup w)
  rw [mainTrace]
  cases hr : w.namesRoundtripOk with
  | false =>
    simp [h1, h2, hclear, hr, List.count_append, List.count_eq_zero]
  | true =>
    cases hd : (filterDevices opts.seat w.seatData).isEmpty with
    | true =>
      simp [h1, h2, hclear, hr, hd, List.count_append, List.count_eq_zero]
    | false =>
      cases hfg : opts.foreground <;> cases hp : w.forkIsParent <;>
        simp [h1, h2, hclear, hr, hd, hfg, hp, List.count_append,
          List.count_eq_zero, hloop, createSource_not_mem_loopAndCleanup]

/-- C7: a clear run that reaches its final roundtrip creates no data
source, never enters the dispatch loop, attempts no file or directory
removal, ends on a single synchronous roundtrip, and exits 0 on success;
and any copy run past the startup checks creates exactly one data
source. -/
theorem clear_run_no_source_single_roundtrip (opts : Options) (w : World)
    (h1 : w.seats.isEmpty = false)
    (h2 : w.requiresSerial = false)
    (h3 : w.namesRoundtripOk = true)
    (h4 : (filterDevices opts.seat w.seatData).isEmpty = false)
    (hclear : opts.clear = true)
    (hrt : w.clearRoundtripOk = true) :
    Event.createSource ∉ (mainTrace opts w).1 ∧
    Event.enterLoop ∉ (mainTrace opts w).1 ∧
    Event.removeFile ∉ (mainTrace opts w).1 ∧
    Event.removeDir ∉ (mainTrace opts w).1 ∧
    (∃ pre, (mainTrace opts w).1 = pre ++ [Event.roundtrip]) ∧
    (mainTrace opts w).2 = .exitCode 0 ∧
    (∀ opts2 : Options, opts2.clear = false →
      (mainTrace opts2 w).1.count Event.createSource = 1) := by
  rw [mainTrace_clear_eq opts w h1 h2 h3 h4 hclear]
  refine ⟨?_, ?_, ?_, ?_,
    ⟨w.seats.map Event.getDevice ++ [Event.roundtrip]
      ++ (filterDevices opts.seat w.seatData).map
          (fun d => Event.setSelection d false), by
        simp [List.append_assoc]⟩,
    by simp [hrt],
    fun opts2 hcl2 => copy_run_creates_one_source opts2 w h1 h2 hcl2⟩
  all_goals simp

/-- Witness for C7: the fixture clear run makes no source, skips the loop
and cleanup, exits 0, and the matching copy run makes exactly one
source. -/
theorem clear_run_no_source_single_roundtrip_witness :
    Event.createSource ∉ (mainTrace clearOptions testWorld).1 ∧
    (mainTrace clearOptions testWorld).2 = .exitCode 0 ∧
    (mainTrace copyOptions testWorld).1.count Event.createSource = 1 := by
  have h := clear_run_no_source_single_roundtrip clearOptions testWorld rfl
    rfl rfl (by decide) rfl rfl
  exact ⟨h.1, h.2.2.2.2.2.1, h.2.2.2.2.2.2 copyOptions rfl⟩

end WlCopy
